import Mathlib

/-
Verification of the connection-lifecycle and detection-dispatch core of
server/main.py (WebRTC multi-object-detection relay server).

The embedding models:
  * the process-wide peer-connection registry (the Python set `pcs`),
  * the connection-state observer `on_connectionstatechange`,
  * the shutdown coordinator `shutdown_event` (asyncio.gather over close
    coroutines followed by `pcs.clear()`),
  * the signaling handler `offer` (RTCSessionDescription construction,
    registration, observer attachment, remote/local description negotiation),
  * the track observer `on_track` and the pass-through `VideoTransformTrack`,
  * the detection dispatch handler `detect_objects` (payload stripping of a
    `base64,` segment, decoding, YOLO post-processing over the COCO label
    table with the 0.25 confidence floor).

External collaborators (the aiortc transport, base64/PIL decoding, the YOLO
engine) are modelled as explicit function parameters; machine floats are
modelled as rationals (the one literal compared against, 0.25, is exactly
representable).  Connections are identified by natural numbers.
-/

-- ### Peer Connection Registry (the Python set `pcs`, main.py line 44)

/-- Python `pcs.add(pc)`. -/
def regAdd (r : Finset Nat) (c : Nat) : Finset Nat := insert c r

/-- Python `pcs.discard(pc)`: removes `c` when present, no-op otherwise. -/
def regDiscard (r : Finset Nat) (c : Nat) : Finset Nat := r.erase c

-- ### Observer / shutdown state: registry plus a log of close() invocations

structure PCState where
  registry : Finset Nat
  closedLog : Multiset Nat
deriving DecidableEq

/-- The `connectionstatechange` observer (main.py lines 201-206): when the
connection state is the string "failed" it awaits `pc.close()` (logged) and
then `pcs.discard(pc)`; every other state leaves the state untouched. -/
def on_connectionstatechange (st : PCState) (pc : Nat) (connState : String) :
    PCState :=
  if connState = "failed" then
    { registry := st.registry.erase pc, closedLog := st.closedLog + {pc} }
  else st

/-- The shutdown coordinator (main.py lines 303-308):
`coros = [pc.close() for pc in pcs]; await asyncio.gather(*coros); pcs.clear()`.
`closeErr pc` models whether the aiortc `close()` coroutine of `pc` raises.
`asyncio.gather` (without `return_exceptions`) schedules every close as a
task — all of them run — but re-raises the first failure, in which case the
subsequent `pcs.clear()` is never executed. -/
def shutdown_event (closeErr : Nat → Option String) (st : PCState) : PCState :=
  let log2 := st.closedLog + st.registry.val
  if ∀ pc ∈ st.registry, closeErr pc = none then
    { registry := ∅, closedLog := log2 }
  else
    { registry := st.registry, closedLog := log2 }

-- ### Signaling handler state

structure SigState where
  registry : Finset Nat
  stateObs : Finset Nat
  trackObs : Finset Nat
  nextId : Nat
deriving DecidableEq

inductive OfferResult where
  | answer (sdp typ : String)
  | serverError (msg : String)
deriving DecidableEq

/-- The session types accepted by the aiortc `RTCSessionDescription`
constructor; any other value raises `ValueError` in `__post_init__`
(the constructor performs no check on the sdp body). -/
def validTypes : List String := ["offer", "pranswer", "answer", "rollback"]

/-- The POST /offer handler (main.py lines 194-222).
`RTCSessionDescription(sdp, type)` is constructed first (raising when the
type is invalid, e.g. empty), then `pc = RTCPeerConnection()` and
`pcs.add(pc)`, then the two observers are attached, then
`setRemoteDescription` / `createAnswer` / `setLocalDescription` run —
modelled by the external `negotiate`, which may fail (e.g. on malformed
m-lines in the sdp body; an empty, media-less body is accepted).  The
handler has no exception handling: a negotiation failure propagates to the
framework as a server error with the connection still registered. -/
def offer (negotiate : String → String → Except String (String × String))
    (st : SigState) (sdpIn typIn : String) : SigState × OfferResult :=
  if typIn ∈ validTypes then
    let pc := st.nextId
    let st1 : SigState :=
      { registry := insert pc st.registry
        stateObs := insert pc st.stateObs
        trackObs := insert pc st.trackObs
        nextId := st.nextId + 1 }
    match negotiate sdpIn typIn with
    | Except.ok a => (st1, OfferResult.answer a.1 a.2)
    | Except.error e => (st1, OfferResult.serverError e)
  else (st, OfferResult.serverError "invalid session type")

-- ### Payload stripping (main.py lines 228-230)
-- Python: `if "base64," in image_data: image_data = image_data.split("base64,")[1]`

/-- The separator string `"base64,"` as a character list. -/
def b64Mark : List Char := ['b', 'a', 's', 'e', '6', '4', ',']

/-- The data-URI head `"data:image/png;"` preceding the separator. -/
def imgHead : List Char :=
  ['d', 'a', 't', 'a', ':', 'i', 'm', 'a', 'g', 'e', '/', 'p', 'n', 'g', ';']

/-- `takesLead m s` is true when `m` is an initial segment of `s`. -/
def takesLead : List Char → List Char → Bool
  | [], _ => true
  | _ :: _, [] => false
  | a :: as, b :: bs => if a = b then takesLead as bs else false

/-- First occurrence of `mark` in a string: returns the segment before the
first occurrence and the remainder after it, or `none` when `mark` does not
occur.  This is the elementary step of Python's `str.split(sep)`:
`s.split(sep)` is `before :: (split of after)` when `mark` occurs. -/
def splitAtMark (mark : List Char) : List Char → Option (List Char × List Char)
  | [] => none
  | c :: rest =>
    if takesLead mark (c :: rest) then some ([], (c :: rest).drop mark.length)
    else (splitAtMark mark rest).map fun p => (c :: p.1, p.2)

/-- The payload-stripping step of the /detect handler: Python
`if "base64," in s: s = s.split("base64,")[1]`.  `split(sep)[1]` is the
segment between the first occurrence of the separator and the second one
(or the end of the string when there is no second occurrence). -/
def stripPayload (s : List Char) : List Char :=
  match splitAtMark b64Mark s with
  | none => s
  | some p =>
    match splitAtMark b64Mark p.2 with
    | none => p.2
    | some q => q.1

-- ### Detection pipeline (main.py lines 224-301)

/-- One raw box from the YOLO engine: `(int(box.cls[0]), float(box.conf[0]),
box.xyxy[0])`.  Confidences and coordinates are modelled as rationals. -/
structure RawDet where
  cls : Nat
  conf : ℚ
  box : ℚ × ℚ × ℚ × ℚ
deriving DecidableEq

/-- One normalized detection item `{"label": ..., "score": ..., "box": ...}`. -/
structure DetItem where
  label : String
  score : ℚ
  box : ℚ × ℚ × ℚ × ℚ
deriving DecidableEq

/-- The request body of POST /detect (main.py lines 140-142). -/
structure DetectionRequest where
  image : List Char
  queries : List String
deriving DecidableEq

/-- The pydantic default for the `queries` field. -/
def defaultQueries : List String :=
  ["person", "car", "bicycle", "motorcycle", "bus", "truck", "dog", "cat",
   "laptop", "phone", "book", "chair", "table", "cup", "bottle", "Pen"]

inductive DetectResponse where
  | ok (detections : List DetItem)
  | err500 (msg : String)
deriving DecidableEq

/-- The COCO label table `class_names` (main.py lines 244-255), 80 entries. -/
def class_names : List String :=
  ["person", "bicycle", "car", "motorcycle", "airplane", "bus", "train",
   "truck", "boat", "traffic light", "fire hydrant", "stop sign",
   "parking meter", "bench", "bird", "cat", "dog", "horse", "sheep", "cow",
   "elephant", "bear", "zebra", "giraffe", "backpack", "umbrella", "handbag",
   "tie", "suitcase", "frisbee", "skis", "snowboard", "sports ball", "kite",
   "baseball bat", "baseball glove", "skateboard", "surfboard",
   "tennis racket", "bottle", "wine glass", "cup", "fork", "knife", "spoon",
   "bowl", "banana", "apple", "sandwich", "orange", "broccoli", "carrot",
   "hot dog", "pizza", "donut", "cake", "chair", "couch", "potted plant",
   "bed", "dining table", "toilet", "tv", "laptop", "mouse", "remote",
   "keyboard", "cell phone", "microwave", "oven", "toaster", "sink",
   "refrigerator", "book", "clock", "vase", "scissors", "teddy bear",
   "hair drier", "toothbrush"]

/-- Python `class_names[class_id]`: raises `IndexError("list index out of
range")` when the index is outside the table. -/
def lookupClass (i : Nat) : Except String String :=
  match class_names.get? i with
  | some n => Except.ok n
  | none => Except.error "list index out of range"

/-- The result-processing loop of the /detect handler (main.py lines
262-286): for each raw box, look up `class_names[class_id]` (which can
raise), then keep the detection only when `confidence > 0.25`. An exception
at any box aborts the whole loop. -/
def processBoxes : List RawDet → Except String (List DetItem)
  | [] => Except.ok []
  | b :: rest =>
    match lookupClass b.cls with
    | Except.error e => Except.error e
    | Except.ok name =>
      match processBoxes rest with
      | Except.error e => Except.error e
      | Except.ok tail =>
        if (1 : ℚ) / 4 < b.conf then
          Except.ok ({ label := name, score := b.conf, box := b.box } :: tail)
        else Except.ok tail

/-- Process-wide mutable state visible to the detection handler: the
registry `pcs` and the media relay.  The handler never touches either. -/
structure GlobalMut where
  pcs : Finset Nat
  relaySubCount : Nat
deriving DecidableEq

/-- The fallible body of the /detect handler: strip the payload, decode it
(`base64.b64decode` + `Image.open`, modelled by the external `decodeImg`),
run the engine, post-process the boxes. -/
def detectPipeline {α : Type} (decodeImg : List Char → Except String α)
    (engine : α → List RawDet) (req : DetectionRequest) :
    Except String (List DetItem) :=
  match decodeImg (stripPayload req.image) with
  | Except.error e => Except.error e
  | Except.ok img => processBoxes (engine img)

/-- The POST /detect handler (main.py lines 224-301): the whole body runs
inside `try/except Exception`, any raised error being returned as a
status-500 JSON body; the global state is threaded through unchanged. -/
def detect_objects {α : Type} (decodeImg : List Char → Except String α)
    (engine : α → List RawDet) (st : GlobalMut) (req : DetectionRequest) :
    GlobalMut × DetectResponse :=
  match detectPipeline decodeImg engine req with
  | Except.ok dets => (st, DetectResponse.ok dets)
  | Except.error e => (st, DetectResponse.err500 e)

-- ### Track observer and pass-through track (main.py lines 118-133, 209-213)

/-- A media stream track: its kind and the stream of frames its `recv`
will deliver (frames identified by naturals). -/
structure MediaTrack where
  kind : String
  frames : List Nat
deriving DecidableEq

/-- `track.recv()`: yields the next frame of the stream, or end-of-stream. -/
def MediaTrack.recv : MediaTrack → Option (Nat × MediaTrack)
  | { kind := _, frames := [] } => none
  | { kind := k, frames := f :: rest } => some (f, { kind := k, frames := rest })

/-- The MediaRelay: `relay.subscribe(track)` records the subscription and
hands back a proxy track replaying the source's upcoming frames. -/
structure RelayState where
  subs : List MediaTrack
deriving DecidableEq

def RelayState.subscribe (rl : RelayState) (t : MediaTrack) :
    RelayState × MediaTrack :=
  ({ subs := rl.subs ++ [t] }, t)

/-- `VideoTransformTrack` (main.py lines 118-133): wraps a subscriber track
together with the `transform` tag. -/
structure VideoTransformTrack where
  track : MediaTrack
  transform : String
deriving DecidableEq

/-- `VideoTransformTrack.recv` (main.py lines 130-133):
`frame = await self.track.recv(); return frame` — the frame is forwarded
unmodified. -/
def VideoTransformTrack.recv (v : VideoTransformTrack) :
    Option (Nat × VideoTransformTrack) :=
  match v.track.recv with
  | none => none
  | some p => some (p.1, { track := p.2, transform := v.transform })

/-- Wiring state of one connection: the relay and the connection's outbound
tracks (`pc.addTrack` appends). -/
structure WiringState where
  relay : RelayState
  outbound : List VideoTransformTrack
deriving DecidableEq

/-- The `track` observer (main.py lines 209-213): for a track of kind
"video", `pc.addTrack(VideoTransformTrack(relay.subscribe(track),
transform="detect"))`; any other kind is ignored. -/
def on_track (st : WiringState) (t : MediaTrack) : WiringState :=
  if t.kind = "video" then
    let pr := st.relay.subscribe t
    { relay := pr.1,
      outbound := st.outbound ++ [{ track := pr.2, transform := "detect" }] }
  else st

-- ### Helper lemmas on the separator search

theorem takesLead_mem (m : List Char) : ∀ (s : List Char),
    takesLead m s = true → ∀ a ∈ m, a ∈ s := by
  induction m with
  | nil => intro s _ a ha; exact absurd ha (List.not_mem_nil a)
  | cons x xs ih =>
    intro s h a ha
    cases s with
    | nil => simp [takesLead] at h
    | cons y ys =>
      simp only [takesLead] at h
      by_cases hxy : x = y
      · rw [if_pos hxy] at h
        rcases List.mem_cons.mp ha with h1 | h1
        · rw [h1, hxy]; exact List.mem_cons_self y ys
        · exact List.mem_cons_of_mem y (ih ys h a h1)
      · rw [if_neg hxy] at h; exact absurd h (by simp)

theorem takesLead_append_self : ∀ (m s : List Char),
    takesLead m (m ++ s) = true := by
  intro m s
  induction m with
  | nil => rfl
  | cons x xs ih => simp [takesLead, ih]

theorem splitAtMark_self (a : Char) (as B : List Char) :
    splitAtMark (a :: as) ((a :: as) ++ B) = some ([], B) := by
  have h1 : takesLead (a :: as) (a :: (as ++ B)) = true := by
    rw [← List.cons_append]; exact takesLead_append_self (a :: as) B
  rw [List.cons_append]
  simp only [splitAtMark]
  rw [if_pos h1, ← List.cons_append, List.drop_left]

theorem splitAtMark_none_of_no_comma : ∀ (s : List Char),
    ',' ∉ s → splitAtMark b64Mark s = none := by
  intro s
  induction s with
  | nil => intro _; rfl
  | cons c rest ih =>
    intro h
    have hc : takesLead b64Mark (c :: rest) = false := by
      cases htl : takesLead b64Mark (c :: rest)
      · rfl
      · exact absurd (takesLead_mem b64Mark (c :: rest) htl ',' (by decide)) h
    have h2 : ',' ∉ rest := fun hm => h (List.mem_cons_of_mem c hm)
    simp [splitAtMark, hc, ih h2]

theorem splitAtMark_head (B : List Char) : ∀ (p : List Char), 'b' ∉ p →
    splitAtMark b64Mark (p ++ (b64Mark ++ B)) = some (p, B) := by
  intro p
  induction p with
  | nil =>
    intro _
    rw [List.nil_append]
    exact splitAtMark_self 'b' ['a', 's', 'e', '6', '4', ','] B
  | cons c p' ih =>
    intro h
    have hcb : ¬ ('b' : Char) = c := fun hbc => h (by rw [hbc]; exact List.mem_cons_self c p')
    have htl : takesLead b64Mark (c :: (p' ++ (b64Mark ++ B))) = false := by
      simp only [b64Mark, takesLead]
      rw [if_neg hcb]
    have h2 : 'b' ∉ p' := fun hm => h (List.mem_cons_of_mem c hm)
    rw [List.cons_append]
    simp only [splitAtMark]
    rw [if_neg (by simp [htl]), ih h2]
    rfl

theorem stripPayload_uri (B : List Char) (h : ',' ∉ B) :
    stripPayload (imgHead ++ (b64Mark ++ B)) = B ∧ stripPayload B = B := by
  constructor
  · simp [stripPayload, splitAtMark_head B imgHead (by decide),
      splitAtMark_none_of_no_comma B h]
  · simp [stripPayload, splitAtMark_none_of_no_comma B h]

-- ### Concrete collaborators used by counterexamples and witnesses

/-- The aiortc negotiation behavior at an empty session body:
`SessionDescription.parse("")` returns an empty, media-less session without
raising, the remaining validation checks are per-media-section (hence
vacuous), and `createAnswer`/`setLocalDescription` succeed, so negotiation
completes and the handler answers normally. -/
def mediaLessNeg : String → String → Except String (String × String) :=
  fun _ _ => Except.ok ("v=0", "answer")

/-- A negotiation collaborator that always fails. -/
def failNeg : String → String → Except String (String × String) :=
  fun _ _ => Except.error "negotiation failure"

/-- The empty signaling state. -/
def sig0 : SigState := { registry := ∅, stateObs := ∅, trackObs := ∅, nextId := 0 }

/-- A close routine that always raises. -/
def failClose : Nat → Option String := fun _ => some "close failure"

-- ### Claims

/-- Claim C8: for every connection c and every Registry state, discarding c
twice leaves the Registry unchanged between the first and the second call,
and discarding an absent connection is a no-op, not an error. -/
theorem discard_idempotent (r : Finset Nat) (c : Nat) :
    regDiscard (regDiscard r c) c = regDiscard r c ∧
    (c ∉ r → regDiscard r c = r) := by
  constructor
  · exact Finset.erase_idem
  · intro h; exact Finset.erase_eq_of_not_mem h

/-- Witness for C8 at the concrete registry containing 1 and 2 and the absent
connection 5. -/
theorem discard_idempotent_witness :
    regDiscard (regDiscard {1, 2} 5) 5 = regDiscard {1, 2} 5 ∧
    regDiscard {1, 2} 5 = ({1, 2} : Finset Nat) :=
  ⟨(discard_idempotent {1, 2} 5).1, (discard_idempotent {1, 2} 5).2 (by decide)⟩

/-- Claim C3: a transition to the "failed" state closes the connection (its
close routine is logged) and discards it from the Registry, and a transition
to any other state (in particular "disconnected") changes nothing. -/
theorem failed_state_teardown (st : PCState) (pc : Nat) (s : String) :
    (s = "failed" →
      pc ∉ (on_connectionstatechange st pc s).registry ∧
      (on_connectionstatechange st pc s).closedLog = st.closedLog + {pc}) ∧
    (s ≠ "failed" → on_connectionstatechange st pc s = st) := by
  constructor
  · intro h
    rw [h]
    constructor
    · simp [on_connectionstatechange]
    · simp [on_connectionstatechange]
  · intro h
    simp [on_connectionstatechange, h]

/-- Witness for C3: connection 7 in the registry transitions to "failed"
(torn down) and to "disconnected" (untouched). -/
theorem failed_state_teardown_witness :
    7 ∉ (on_connectionstatechange ⟨{7}, 0⟩ 7 "failed").registry ∧
    (on_connectionstatechange ⟨{7}, 0⟩ 7 "failed").closedLog =
      (0 : Multiset Nat) + {7} ∧
    on_connectionstatechange ⟨{7}, 0⟩ 7 "disconnected" = ⟨{7}, 0⟩ := by
  have h1 := (failed_state_teardown ⟨{7}, 0⟩ 7 "failed").1 rfl
  have h2 := (failed_state_teardown ⟨{7}, 0⟩ 7 "disconnected").2 (by decide)
  exact ⟨h1.1, h1.2, h2⟩

/-- Counterexample to C4 as stated: with a single registered connection 7
whose close routine raises, the exception from `asyncio.gather` propagates
before `pcs.clear()` runs, so the Registry is not cleared; a second call
closes connection 7 again, so its close routine runs twice, not once. -/
theorem shutdown_close_failure_counterexample :
    (shutdown_event failClose ⟨{7}, 0⟩).registry ≠ (∅ : Finset Nat) ∧
    Multiset.count 7
      (shutdown_event failClose (shutdown_event failClose ⟨{7}, 0⟩)).closedLog
      = 2 := by decide

/-- Claim C4 (amended): shutdownAll invokes the close routine of every
connection in the Registry snapshot exactly once more, regardless of
individual close failures (one close failure does not prevent closing the
rest); when every close succeeds the Registry is cleared afterwards and a
second call is idempotent (it closes an empty set); when some close fails
the exception propagates before the Registry is cleared. -/
theorem shutdown_closes_snapshot (closeErr : Nat → Option String)
    (st : PCState) :
    (∀ pc : Nat, Multiset.count pc (shutdown_event closeErr st).closedLog =
      Multiset.count pc st.closedLog + (if pc ∈ st.registry then 1 else 0)) ∧
    ((∀ pc ∈ st.registry, closeErr pc = none) →
      (shutdown_event closeErr st).registry = ∅ ∧
      shutdown_event closeErr (shutdown_event closeErr st) =
        shutdown_event closeErr st) := by
  have hlog : (shutdown_event closeErr st).closedLog =
      st.closedLog + st.registry.val := by
    simp only [shutdown_event]
    split <;> rfl
  constructor
  · intro pc
    rw [hlog, Multiset.count_add]
    by_cases hm : pc ∈ st.registry
    · rw [if_pos hm, Multiset.count_eq_one_of_mem st.registry.nodup hm]
    · rw [if_neg hm, Multiset.count_eq_zero_of_not_mem hm]
  · intro hall
    have h1 : shutdown_event closeErr st =
        ⟨∅, st.closedLog + st.registry.val⟩ := by
      simp only [shutdown_event]
      rw [if_pos hall]
    refine ⟨by rw [h1], ?_⟩
    rw [h1]
    simp [shutdown_event]

/-- Witness for C4 (amended): with one registered connection 3 whose close
succeeds, its close routine runs exactly once, the Registry ends empty and
a second shutdown is a no-op. -/
theorem shutdown_closes_snapshot_witness :
    Multiset.count 3 (shutdown_event (fun _ => none) ⟨{3}, 0⟩).closedLog = 1 ∧
    (shutdown_event (fun _ => none) ⟨{3}, 0⟩).registry = ∅ ∧
    shutdown_event (fun _ => none) (shutdown_event (fun _ => none) ⟨{3}, 0⟩) =
      shutdown_event (fun _ => none) ⟨{3}, 0⟩ := by
  have h := shutdown_closes_snapshot (fun _ => none) ⟨{3}, 0⟩
  have h2 := h.2 (fun _ _ => rfl)
  refine ⟨?_, h2.1, h2.2⟩
  have h1 := h.1 3
  simpa using h1

/-- Counterexample to C1 as stated: an offer with a valid type "offer" but an
empty session body passes the type-only `RTCSessionDescription` validation,
the connection is created and registered, and aiortc accepts the media-less
SDP, so the handler returns a successful answer — no `InvalidOffer` is
raised — while the Registry has grown from 0 to 1 entries. -/
theorem empty_body_offer_registers_counterexample :
    (offer mediaLessNeg sig0 "" "offer").1.registry.card = 1 ∧
    sig0.registry.card = 0 ∧
    (offer mediaLessNeg sig0 "" "offer").2 =
      OfferResult.answer "v=0" "answer" := by decide

/-- Claim C1 (amended): an offer whose session type is empty (or any other
value rejected by the session-description constructor) fails with the
validation error and the connection is never registered — the Registry is
unchanged.  The session body is not validated at all: with a valid type the
connection is created and registered (Registry grows by its fresh handle)
whatever the body and whatever the negotiation outcome — on an empty,
media-less body negotiation in fact succeeds and the offer is answered. -/
theorem invalid_type_offer_unregistered
    (negotiate : String → String → Except String (String × String))
    (st : SigState) (sdpIn typIn : String) :
    (typIn ∉ validTypes →
      offer negotiate st sdpIn typIn =
        (st, OfferResult.serverError "invalid session type")) ∧
    (typIn ∈ validTypes →
      (offer negotiate st sdpIn typIn).1.registry =
        insert st.nextId st.registry) := by
  constructor
  · intro h
    simp [offer, h]
  · intro h
    simp only [offer, if_pos h]
    cases negotiate sdpIn typIn <;> rfl

/-- Witness for C1 (amended): the empty type is rejected with the state
untouched; the valid type "offer" registers the fresh connection 0. -/
theorem invalid_type_offer_unregistered_witness :
    offer mediaLessNeg sig0 "v=0" "" =
      (sig0, OfferResult.serverError "invalid session type") ∧
    (offer mediaLessNeg sig0 "v=0" "offer").1.registry =
      insert 0 (∅ : Finset Nat) :=
  ⟨(invalid_type_offer_unregistered mediaLessNeg sig0 "v=0" "").1 (by decide),
   (invalid_type_offer_unregistered mediaLessNeg sig0 "v=0" "offer").2
     (by decide)⟩

/-- Claim C2: whenever negotiation (applying the remote description or
creating/applying the local answer) fails, the newly created connection is
either fully registered-and-observed (in the Registry with both the
state-change and the track observer attached) or fully discarded; the code
always takes the first branch, since registration and observer attachment
complete before the first fallible negotiation step. -/
theorem offer_failure_fully_registered
    (negotiate : String → String → Except String (String × String))
    (st : SigState) (sdpIn typIn : String) (e : String)
    (htyp : typIn ∈ validTypes)
    (hneg : negotiate sdpIn typIn = Except.error e) :
    (st.nextId ∈ (offer negotiate st sdpIn typIn).1.registry ∧
     st.nextId ∈ (offer negotiate st sdpIn typIn).1.stateObs ∧
     st.nextId ∈ (offer negotiate st sdpIn typIn).1.trackObs) ∨
    (st.nextId ∉ (offer negotiate st sdpIn typIn).1.registry ∧
     st.nextId ∉ (offer negotiate st sdpIn typIn).1.stateObs ∧
     st.nextId ∉ (offer negotiate st sdpIn typIn).1.trackObs) := by
  left
  simp [offer, if_pos htyp, hneg]

/-- Witness for C2: a negotiation that always fails still leaves connection 0
registered with both observers attached. -/
theorem offer_failure_fully_registered_witness :
    (0 ∈ (offer failNeg sig0 "v=0" "offer").1.registry ∧
     0 ∈ (offer failNeg sig0 "v=0" "offer").1.stateObs ∧
     0 ∈ (offer failNeg sig0 "v=0" "offer").1.trackObs) ∨
    (0 ∉ (offer failNeg sig0 "v=0" "offer").1.registry ∧
     0 ∉ (offer failNeg sig0 "v=0" "offer").1.stateObs ∧
     0 ∉ (offer failNeg sig0 "v=0" "offer").1.trackObs) :=
  offer_failure_fully_registered failNeg sig0 "v=0" "offer"
    "negotiation failure" (by decide) rfl

/-- Claim C5: for a base64-encoded payload B (base64 text never contains a
comma, hence never the segment "base64,"), the data-URI-prefixed payload
"data:image/png;base64,B" and the bare payload "B" strip to the same bytes,
so the /detect handler produces identical results for them, whatever the
decoder and engine do. -/
theorem detect_uri_bare_agree {α : Type}
    (decodeImg : List Char → Except String α) (engine : α → List RawDet)
    (st : GlobalMut) (qs : List String) (B : List Char) (h : ',' ∉ B) :
    detect_objects decodeImg engine st
      { image := "data:image/png;base64,".toList ++ B, queries := qs } =
      detect_objects decodeImg engine st { image := B, queries := qs } := by
  have huri : "data:image/png;base64,".toList = imgHead ++ b64Mark := by decide
  have hs : stripPayload ("data:image/png;base64,".toList ++ B) =
      stripPayload B := by
    rw [huri, List.append_assoc, (stripPayload_uri B h).1,
      (stripPayload_uri B h).2]
  simp only [detect_objects, detectPipeline]
  rw [hs]

/-- Witness for C5 at the concrete payload "aGVsbG8=" (base64 of "hello"). -/
theorem detect_uri_bare_agree_witness :
    detect_objects (fun _ => Except.ok ()) (fun _ => ([] : List RawDet))
      ⟨∅, 0⟩ { image := "data:image/png;base64,".toList ++ "aGVsbG8=".toList,
               queries := defaultQueries } =
    detect_objects (fun _ => Except.ok ()) (fun _ => ([] : List RawDet))
      ⟨∅, 0⟩ { image := "aGVsbG8=".toList, queries := defaultQueries } :=
  detect_uri_bare_agree _ _ _ _ _ (by decide)

/-- Counterexample to C6 as stated: a detection with confidence exactly 1/4
is not below the threshold 0.25, yet the code discards it, because the
comparison is strict (`confidence > 0.25`). -/
theorem threshold_boundary_counterexample :
    processBoxes [{ cls := 0, conf := 1 / 4, box := (0, 0, 0, 0) }] =
      Except.ok [] ∧
    ¬ ((1 : ℚ) / 4 < 1 / 4) := by
  have hlt : ¬ ((1 : ℚ) / 4 < 1 / 4) := lt_irrefl _
  have hlook : lookupClass 0 = Except.ok "person" := rfl
  exact ⟨by simp [processBoxes, hlook, hlt], hlt⟩

/-- Claim C6 (amended): for every engine output whose class indices are all
inside the 80-entry label table, the result contains exactly the detections
whose confidence is strictly above 0.25 (confidence at or below 0.25 is
discarded), each mapped to the table label at its class index, its
confidence as score, and its [x1,y1,x2,y2] box. -/
theorem yolo_threshold_filter (dets : List RawDet)
    (h : ∀ d ∈ dets, d.cls < 80) :
    processBoxes dets = Except.ok
      ((dets.filter fun d => (1 : ℚ) / 4 < d.conf).map fun d =>
        { label := (class_names.get? d.cls).getD "", score := d.conf,
          box := d.box }) := by
  induction dets with
  | nil => rfl
  | cons b rest ih =>
    have hb : b.cls < 80 := h b (List.mem_cons_self b rest)
    have hlen : class_names.length = 80 := by rfl
    obtain ⟨n, hn⟩ : ∃ n, class_names.get? b.cls = some n := by
      cases hq : class_names.get? b.cls with
      | none =>
        exact absurd (hlen ▸ List.get?_eq_none.mp hq) (Nat.not_le.mpr hb)
      | some n => exact ⟨n, rfl⟩
    have hlook : lookupClass b.cls = Except.ok n := by
      unfold lookupClass
      rw [hn]
    have hgd : (class_names.get? b.cls).getD "" = n := by rw [hn]; rfl
    have hrest : ∀ d ∈ rest, d.cls < 80 :=
      fun d hd => h d (List.mem_cons_of_mem b hd)
    simp only [processBoxes, hlook, ih hrest, List.filter_cons]
    by_cases hc : (1 : ℚ) / 4 < b.conf
    · rw [if_pos hc, if_pos (decide_eq_true hc)]
      simp only [List.map_cons]
      rw [hgd]
    · rw [if_neg hc, if_neg (by simpa using hc)]

/-- Witness for C6 (amended): a "person" box at confidence 1/2 is kept and
mapped to its label, a "cat" box at confidence 1/5 is discarded. -/
theorem yolo_threshold_filter_witness :
    processBoxes [{ cls := 0, conf := 1 / 2, box := (0, 0, 1, 1) },
                  { cls := 15, conf := 1 / 5, box := (0, 0, 1, 1) }] =
      Except.ok [{ label := "person", score := 1 / 2, box := (0, 0, 1, 1) }] := by
  have h := yolo_threshold_filter
      [{ cls := 0, conf := 1 / 2, box := (0, 0, 1, 1) },
       { cls := 15, conf := 1 / 5, box := (0, 0, 1, 1) }]
      (by decide)
  rw [h]
  have h1 : ((1 : ℚ) / 4 < 1 / 2) := by norm_num
  have h2 : ¬ ((1 : ℚ) / 4 < 1 / 5) := by norm_num
  simp only [List.filter_cons, List.filter_nil]
  rw [if_pos (decide_eq_true h1), if_neg (by simpa using h2)]
  rfl

/-- Claim C7: the detection handler's output does not depend on the
`queries` field of the request — two requests with the same image payload
and arbitrary different queries produce identical responses and states. -/
theorem queries_no_influence {α : Type}
    (decodeImg : List Char → Except String α) (engine : α → List RawDet)
    (st : GlobalMut) (img : List Char) (q1 q2 : List String) :
    detect_objects decodeImg engine st { image := img, queries := q1 } =
      detect_objects decodeImg engine st { image := img, queries := q2 } := rfl

/-- Claim C9: on arrival of a track of kind "video" the observer subscribes
it via the relay and appends a pass-through track (transform tag "detect")
to the connection's outbound legs, and that pass-through track's recv
forwards each source frame unmodified; a track of any other kind leaves the
wiring state untouched — no relay subscription, no error. -/
theorem video_track_wiring (st : WiringState) (t : MediaTrack) :
    (t.kind = "video" →
      (on_track st t).relay.subs = st.relay.subs ++ [t] ∧
      (on_track st t).outbound =
        st.outbound ++ [{ track := t, transform := "detect" }] ∧
      (∀ v : VideoTransformTrack, v.recv = v.track.recv.map
        fun p => (p.1, { track := p.2, transform := v.transform }))) ∧
    (t.kind ≠ "video" → on_track st t = st) := by
  constructor
  · intro h
    refine ⟨?_, ?_, ?_⟩
    · simp [on_track, h, RelayState.subscribe]
    · simp [on_track, h, RelayState.subscribe]
    · intro v
      cases hr : v.track.recv <;> simp [VideoTransformTrack.recv, hr]
  · intro h
    simp [on_track, h]

/-- Witness for C9: a video track with frames [1, 2] is wired (one new relay
subscription, one new outbound pass-through leg), an audio track is
ignored. -/
theorem video_track_wiring_witness :
    (on_track ⟨⟨[]⟩, []⟩ ⟨"video", [1, 2]⟩).relay.subs = [⟨"video", [1, 2]⟩] ∧
    on_track ⟨⟨[]⟩, []⟩ ⟨"audio", [3]⟩ = ⟨⟨[]⟩, []⟩ := by
  have h1 := (video_track_wiring ⟨⟨[]⟩, []⟩ ⟨"video", [1, 2]⟩).1 rfl
  have h2 := (video_track_wiring ⟨⟨[]⟩, []⟩ ⟨"audio", [3]⟩).2 (by decide)
  exact ⟨by simpa using h1.1, h2⟩

/-- Claim C10: the /detect handler is total at its interface: it never
modifies the process-wide state (registry and relay) on any path, every
pipeline failure is returned as a status-500 error body rather than a
crash, and in particular an engine-reported class index outside the
80-entry table (here 80 itself) is caught and returned as the 500 body
carrying the IndexError message. -/
theorem detect_total_no_state_change {α : Type}
    (decodeImg : List Char → Except String α) (engine : α → List RawDet)
    (st : GlobalMut) (req : DetectionRequest) :
    (detect_objects decodeImg engine st req).1 = st ∧
    (detect_objects decodeImg engine st req).2 =
      (match detectPipeline decodeImg engine req with
       | Except.ok dets => DetectResponse.ok dets
       | Except.error e => DetectResponse.err500 e) ∧
    (detect_objects (fun _ : List Char => Except.ok ())
        (fun _ => [{ cls := 80, conf := 9 / 10, box := (0, 0, 0, 0) }]) st
        req).2 = DetectResponse.err500 "list index out of range" := by
  refine ⟨?_, ?_, ?_⟩
  · simp only [detect_objects]
    cases detectPipeline decodeImg engine req <;> rfl
  · simp only [detect_objects]
    cases detectPipeline decodeImg engine req <;> rfl
  · rfl
